import Mathlib

/-!
Verification of the RAG frontend (vraj1091/RAG) against its design
specification.  The JavaScript sources under frontend/src are shallowly
embedded below: JS values that matter for truthiness dispatch become the
inductive type JsVal, string operations become Lean String functions, and
the stateful React handlers become explicit state-transition functions.
Backend components that are described by the spec but whose code is not in
the repository snapshot (Document Registry, Chat Orchestrator, batch
source processing) are modelled from the specification text and are marked
as such in their doc comments.
-/

namespace RAGSpec

/-! ## JavaScript value model

JsVal models the JavaScript values the frontend inspects with truthiness
tests, typeof tests and field accesses.  jobj models both plain objects
and arrays (typeof gives the string object for both); objects are modelled
with their key/value pairs in order, keys distinct.
-/

inductive JsVal where
  | jnull
  | jundefined
  | jbool (b : Bool)
  | jnum (n : Int)
  | jstr (s : String)
  | jobj (fields : List (String × JsVal))

/-- JavaScript truthiness: null, undefined, false, 0 and the empty string
are falsy; every object (including the empty object) is truthy. -/
def truthy : JsVal → Bool
  | .jnull => false
  | .jundefined => false
  | .jbool b => b
  | .jnum n => n != 0
  | .jstr s => s != ""
  | .jobj _ => true

/-- Whether a JavaScript typeof test against the string object succeeds:
true for objects and for null. -/
def typeofObject : JsVal → Bool
  | .jnull => true
  | .jobj _ => true
  | _ => false

/-- Property access v.k: the value stored under key k of an object, and
undefined for a missing key or a non-object receiver. -/
def getField : JsVal → String → JsVal
  | .jobj fields, k =>
      match fields.find? (fun p => p.1 == k) with
      | some p => p.2
      | none => .jundefined
  | _, _ => .jundefined

/-- Whether an object carries key k at all (the claim reading of a field
being present, as opposed to being truthy). -/
def hasField : JsVal → String → Bool
  | .jobj fields, k => fields.any (fun p => p.1 == k)
  | _, _ => false

/-- The JavaScript short-circuit or on values: a or b evaluates to a when
a is truthy and to b otherwise. -/
def jsOr (a b : JsVal) : JsVal :=
  if truthy a then a else b

/-- A non-empty object: jobj with at least one field.  This is the shape
of value for which the chart panel of Chat.jsx renders. -/
def isNonemptyObject : JsVal → Bool
  | .jobj (_ :: _) => true
  | _ => false

/-- Object.keys length of an object value (0 for non-objects). -/
def objectKeysLength : JsVal → Nat
  | .jobj fields => fields.length
  | _ => 0

/-! ## String containment (JavaScript String.prototype.includes) -/

/-- Character-list prefix test, written out structurally. -/
def charListPrefix : List Char → List Char → Bool
  | [], _ => true
  | _ :: _, [] => false
  | c :: cs, d :: ds => c == d && charListPrefix cs ds

/-- Does pat occur as a contiguous run somewhere in hay? -/
def charListSub (pat : List Char) : List Char → Bool
  | [] => charListPrefix pat []
  | h :: t => charListPrefix pat (h :: t) || charListSub pat t

/-- JavaScript s.includes(pat). -/
def strContains (s pat : String) : Bool :=
  charListSub pat.data s.data

/-- JavaScript s.trim(): strip leading and trailing whitespace.  Written
over the character list so that it evaluates by kernel reduction. -/
def jsTrim (s : String) : String :=
  ⟨((s.data.dropWhile Char.isWhitespace).reverse.dropWhile Char.isWhitespace).reverse⟩

/-! ## KnowledgeBase.jsx: file-URL dispatch (handleFileUrlSubmit)

Embeds KnowledgeBase.jsx lines 129-166.  The handler first returns when
the trimmed URL is blank, then tests substrings of the raw URL in order
and invokes exactly one of three ingestion endpoints.
-/

/-- The ingestion endpoint chosen for a file URL; endpointNone records
that the handler returned without invoking any endpoint. -/
inductive IngestEndpoint where
  | driveFolder
  | driveFile
  | pdfUrl
  | endpointNone
deriving DecidableEq

/-- Endpoint selection of handleFileUrlSubmit (KnowledgeBase.jsx 129-166):
blank (after trim) invokes nothing; otherwise the Google Drive folder
endpoint when the URL contains the folder marker, else the Google Drive
file endpoint when it contains either file marker, else the pdf-url
endpoint. -/
def handleFileUrlSubmit (fileUrl : String) : IngestEndpoint :=
  if jsTrim fileUrl = "" then .endpointNone
  else if strContains fileUrl "drive.google.com/drive/folders/" then .driveFolder
  else if strContains fileUrl "drive.google.com/file/"
          || strContains fileUrl "drive.google.com/uc?id=" then .driveFile
  else .pdfUrl

/-! ## KnowledgeBase.jsx: web-URL batch submission (handleWebUrlsSubmit)

Embeds KnowledgeBase.jsx lines 168-183: the handler filters the entered
URLs by truthiness of url.trim() (non-blank after trimming), returns
without any request when none survives, and otherwise sends one batch
request whose sources are the trimmed survivors, each tagged web_url.
-/

structure WebSource where
  url : String
  tag : String
deriving DecidableEq

/-- The single batch request body built by handleWebUrlsSubmit, or none
when no request is sent. -/
def handleWebUrlsSubmit (webUrls : List String) : Option (List WebSource) :=
  let validUrls := webUrls.filter (fun u => jsTrim u ≠ "")
  if validUrls.isEmpty then none
  else some (validUrls.map (fun u => ⟨jsTrim u, "web_url"⟩))

/-- Modelled from the spec: the batch endpoint processing multiple
sources is backend code not present under the repository snapshot.  Spec
4.1: a batch submission is a thin fan-out over the single-source path;
partial failure of one item must not abort the rest.  Each source is
therefore processed independently; outcome gives the per-item result. -/
def processMultipleSources (outcome : WebSource → Bool) (sources : List WebSource) :
    List (WebSource × Bool) :=
  sources.map (fun s => (s, outcome s))

/-! ## KnowledgeBase.jsx: the web-URL input list (C10)

Embeds the webUrls state (line 77, initialised to a single blank entry)
and the three handlers addWebUrlField, removeWebUrlField and updateWebUrl
(lines 197-207).  removeWebUrlField filters out one index, which is
List.eraseIdx; updateWebUrl copies the list and overwrites one index.
The UI only ever issues update with an index of a rendered entry, so the
index is always in range and the write is List.set.
-/

inductive UrlOp where
  | add
  | remove (i : Nat)
  | update (i : Nat) (v : String)

/-- One step of the web-URL list state: add appends a blank entry only
below length 5, remove erases an index only above length 1, update
overwrites an index in place. -/
def urlStep (l : List String) : UrlOp → List String
  | .add => if l.length < 5 then l ++ [""] else l
  | .remove i => if 1 < l.length then l.eraseIdx i else l
  | .update i v => l.set i v

/-- The web-URL list after a sequence of operations, starting from the
initial single blank entry of line 77. -/
def runUrlOps (ops : List UrlOp) : List String :=
  ops.foldl urlStep [""]

/-! ## Chat.jsx: sendMessage

Embeds Chat.jsx lines 80-162.  The handler returns early on a blank
message; otherwise it appends a temporary user message carrying a fresh
unique id.  On success the temporary message is filtered back out and a
user message plus an assistant message are appended; on failure (the
catch block, lines 155-161) the temporary message is filtered back out,
an error toast is shown, and nothing else changes.  Because the
temporary id is fresh and the message is removed again on every path,
the embedding nets it out of the final list.
-/

inductive Role where
  | user
  | assistant
deriving DecidableEq

/-- A rendered chat message, with the fields Chat.jsx attaches when it
builds the two new messages of a turn (lines 125-141). -/
structure ChatMessage where
  role : Role
  content : String
  charts : JsVal
  contextUsed : JsVal

/-- The chat API response shape consumed by sendMessage.  Fields that
the handler inspects with truthiness tests are JsVal; an omitted field
is jundefined. -/
structure ChatResponse where
  message : String
  charts : JsVal
  financialInsights : JsVal
  contextUsed : JsVal
  conversationId : Nat

/-- Chart extraction of sendMessage (lines 109-120): chartData starts
null, is overwritten by response.charts when that is truthy and of
typeof object, and then overwritten by response.financial_insights.charts
when financial_insights and its charts field are both truthy. -/
def chartDataOf (respCharts respFI : JsVal) : JsVal :=
  let cd0 : JsVal := .jnull
  let cd1 := if truthy respCharts && typeofObject respCharts then respCharts else cd0
  let cd2 := if truthy respFI && truthy (getField respFI "charts")
             then getField respFI "charts" else cd1
  cd2

/-- The assistant message Chat.jsx builds from a response (lines
132-140): content falls back on a default when response.message is
falsy, charts is the extracted chart payload, and context_used is
response.context_used or-defaulted to false. -/
def assistantMessageOf (resp : ChatResponse) : ChatMessage :=
  { role := .assistant
    content := if resp.message = "" then "No response from assistant." else resp.message
    charts := chartDataOf resp.charts resp.financialInsights
    contextUsed := jsOr resp.contextUsed (.jbool false) }

/-- The user message of a turn (lines 126-131). -/
def userMessageOf (userMessage : String) : ChatMessage :=
  { role := .user
    content := userMessage
    charts := .jnull
    contextUsed := .jundefined }

/-- The message list after one sendMessage call: raw is the input box
content, outcome is some response on success and none when the API call
threw (the catch block of lines 155-161). -/
def sendMessageMessages (messages : List ChatMessage) (raw : String)
    (outcome : Option ChatResponse) : List ChatMessage :=
  if jsTrim raw = "" then messages
  else
    match outcome with
    | some resp => messages ++ [userMessageOf (jsTrim raw), assistantMessageOf resp]
    | none => messages

/-- The chart-panel guard of the renderer (line 377): charts must be
truthy, of typeof object, and have at least one key. -/
def chartsDisplayed (c : JsVal) : Bool :=
  truthy c && typeofObject c && decide (0 < objectKeysLength c)

/-! ## Chat.jsx: conversation title derivation (C5)

Embeds lines 146-154: when no conversation was current, or the response
carries a different conversation id, the current conversation is replaced
by one whose title is the user message (already trimmed at line 84) cut
to 50 characters, with a three-dot ellipsis appended exactly when the
message length exceeds 50.
-/

structure Conversation where
  id : Nat
  title : String

/-- The title computed at lines 149-151 from the trimmed user message. -/
def conversationTitle (userMessage : String) : String :=
  userMessage.take 50 ++ (if 50 < userMessage.length then "..." else "")

/-- The conversation update of lines 146-154. -/
def updatedConversation (cur : Option Conversation) (respId : Nat)
    (userMessage : String) : Conversation :=
  match cur with
  | none => ⟨respId, conversationTitle userMessage⟩
  | some c => if c.id = respId then c else ⟨respId, conversationTitle userMessage⟩

/-! ## TallyDataFetcher.jsx (TallyAnalytics): ledger field aliasing (C4)

Embeds the field-alias expressions that appear identically in the CSV
export (line 557), the top-ledgers chart (line 595) and the ledger table
(lines 789 and 796): the JavaScript short-circuit or chains
ledger.opening_balance or-else ledger.balance or-else 0, and
ledger.parent or-else ledger.group or-else the string N/A.
-/

/-- The balance value the dashboard resolves for a raw ledger record
(lines 557, 595, 789). -/
def resolvedBalanceField (l : JsVal) : JsVal :=
  jsOr (getField l "opening_balance") (jsOr (getField l "balance") (.jnum 0))

/-- The group value the dashboard resolves for a raw ledger record
(lines 557, 796). -/
def resolvedGroupField (l : JsVal) : JsVal :=
  jsOr (getField l "parent") (jsOr (getField l "group") (.jstr "N/A"))

/-- The balance resolution as the claim words it: the opening_balance
field if present (the key exists on the record), otherwise the balance
field if present, otherwise 0.  Stated from the claim for comparison
with the source embedding resolvedBalanceField. -/
def claimPresentBalanceField (l : JsVal) : JsVal :=
  if hasField l "opening_balance" then getField l "opening_balance"
  else if hasField l "balance" then getField l "balance"
  else .jnum 0

/-- The group resolution as the claim words it: the parent field if
present, otherwise the group field if present, otherwise N/A.  Stated
from the claim for comparison with resolvedGroupField. -/
def claimPresentGroupField (l : JsVal) : JsVal :=
  if hasField l "parent" then getField l "parent"
  else if hasField l "group" then getField l "group"
  else .jstr "N/A"

/-! ## TallyDataFetcher.jsx: the polling state machine (C9)

Embeds the connection and polling state of the TallyDataFetcher
component: isConnected, isDataFetching, and whether intervalRef.current
holds a live timer.  Events embed the handlers:
connectToTally success/failure (lines 73-108), startDataFetching (lines
50-64, which refuses when not connected, otherwise performs an immediate
fetch and installs the interval), stopDataFetching (lines 41-48, which
clears the interval), a timer tick (the interval callback invoking
fetchTallyData, lines 23-39, whose failure branch sets isConnected to
false but does not clear the interval), and disconnectFromTally (lines
110-120, which calls stopDataFetching).  The Bool on start and tick is
the outcome of the fetch they perform.
-/

structure FetcherState where
  isConnected : Bool
  isDataFetching : Bool
  timerActive : Bool
deriving DecidableEq

inductive FetchEvent where
  | connectOk
  | connectFail
  | start (fetchOk : Bool)
  | stop
  | tick (fetchOk : Bool)
  | disconnect
deriving DecidableEq

/-- One transition of the TallyDataFetcher state. -/
def fetcherStep (s : FetcherState) : FetchEvent → FetcherState
  | .connectOk => { s with isConnected := true }
  | .connectFail => { s with isConnected := false }
  | .start ok =>
      if s.isConnected then
        let started : FetcherState :=
          { s with isDataFetching := true, timerActive := true }
        if ok then started else { started with isConnected := false }
      else s
  | .stop => { s with isDataFetching := false, timerActive := false }
  | .tick ok =>
      if s.timerActive then
        (if ok then s else { s with isConnected := false })
      else s
  | .disconnect => { isConnected := false, isDataFetching := false, timerActive := false }

/-- Whether handling the event in state s performs a data fetch (a call
of apiService.getTallyLiveData): start fetches immediately when
connected, and a tick fetches whenever the timer is installed. -/
def fetchOccurs (s : FetcherState) : FetchEvent → Bool
  | .start _ => s.isConnected
  | .tick _ => s.timerActive
  | _ => false

/-- Folding a list of events through the state machine. -/
def runFetcher (s : FetcherState) (evs : List FetchEvent) : FetcherState :=
  evs.foldl fetcherStep s

/-- Whether any periodic (timer-driven) fetch fires while running the
event list from state s. -/
def periodicFetchOccurs : FetcherState → List FetchEvent → Bool
  | _, [] => false
  | s, e :: rest =>
      (match e with
       | .tick _ => fetchOccurs s e
       | _ => false)
      || periodicFetchOccurs (fetcherStep s e) rest

/-- Whether an event is a startDataFetching call. -/
def isStartEvent : FetchEvent → Bool
  | .start _ => true
  | _ => false

/-! ## Document Registry and Vector Index (C2)

Modelled from the spec: the Document Registry, the ingestion pipeline
and the Vector Index are backend code not present under the repository
snapshot.  Spec section 3: status completed requires chunk_count at
least 1; any extraction yielding zero usable text moves status to
failed.  Spec section 4.4: delete cascades and must remove all chunks of
the document from the Vector Index, leaving no orphan chunks.
-/

inductive DocStatus where
  | pending
  | processing
  | completed
  | failed
deriving DecidableEq

structure Doc where
  id : Nat
  status : DocStatus
  chunkCount : Nat
deriving DecidableEq

structure Chunk where
  docId : Nat
  seq : Nat
deriving DecidableEq

structure RegistryState where
  docs : List Doc
  index : List Chunk

/-- Modelled from the spec (section 4.4): create registers a new pending
document with no chunks. -/
def createDoc (s : RegistryState) (id : Nat) : RegistryState :=
  { s with docs := s.docs ++ [⟨id, .pending, 0⟩] }

/-- Modelled from the spec (sections 3, 4.2, 4.3): processing a document
whose extraction yielded the given chunk texts marks it failed when no
usable text came out, and otherwise marks it completed with the chunk
count and writes one indexed chunk per passage. -/
def finishProcessing (s : RegistryState) (id : Nat) (chunkTexts : List String) :
    RegistryState :=
  if chunkTexts.isEmpty then
    { s with docs := s.docs.map (fun d => if d.id = id then { d with status := .failed } else d) }
  else
    { docs := s.docs.map (fun d =>
        if d.id = id then { d with status := .completed, chunkCount := chunkTexts.length } else d)
      index := s.index ++ (List.range chunkTexts.length).map (fun i => ⟨id, i⟩) }

/-- Modelled from the spec (section 4.4): delete removes the document
record and every chunk of that document from the index. -/
def deleteDoc (s : RegistryState) (id : Nat) : RegistryState :=
  { docs := s.docs.filter (fun d => d.id ≠ id)
    index := s.index.filter (fun c => c.docId ≠ id) }

inductive RegOp where
  | create (id : Nat)
  | finish (id : Nat) (chunkTexts : List String)
  | delete (id : Nat)

def regStep (s : RegistryState) : RegOp → RegistryState
  | .create id => createDoc s id
  | .finish id texts => finishProcessing s id texts
  | .delete id => deleteDoc s id

/-- The registry state after a sequence of operations from the empty
initial state. -/
def runRegistry (ops : List RegOp) : RegistryState :=
  ops.foldl regStep ⟨[], []⟩

/-- The spec invariant of section 3: every completed document has at
least one chunk. -/
def chunkInvariant (s : RegistryState) : Prop :=
  ∀ d ∈ s.docs, d.status = .completed → 1 ≤ d.chunkCount

/-! ## Chat Orchestrator (C3)

Modelled from the spec: the Chat Orchestrator and Conversation Manager
are backend code not present under the repository snapshot.  Spec
sections 4.6 and 4.7 steps 2-4 and spec section 8: a rag request while
zero documents have status completed is silently downgraded to general
mode for that turn and answered with a normal, non-error assistant
message carrying context_used false.
-/

inductive ChatMode where
  | general
  | rag
deriving DecidableEq

structure OrchestratorResult where
  messageText : String
  isError : Bool
  contextUsed : Bool
  usedMode : ChatMode

/-- Modelled from the spec (sections 4.6, 4.7, 8): the orchestrator
dispatch on mode and the number of completed documents.  modelReply is
the text the external model returns for the composed prompt. -/
def orchestrate (completedDocs : Nat) (mode : ChatMode) (modelReply : String) :
    OrchestratorResult :=
  match mode with
  | .general => ⟨modelReply, false, false, .general⟩
  | .rag =>
      if completedDocs = 0 then ⟨modelReply, false, false, .general⟩
      else ⟨modelReply, false, true, .rag⟩

/-! ## Theorems -/

/-- C7: for every non-blank file URL submitted on the Knowledge Base
page, exactly one ingestion endpoint is invoked, selected by ordered
substring tests: the Google Drive folder endpoint exactly when the URL
contains the folder marker; otherwise the Google Drive file endpoint
exactly when it contains one of the two file markers; otherwise the
pdf-url endpoint; a blank URL invokes no endpoint. -/
theorem fileUrlDispatch_ordered (url : String) :
    (jsTrim url = "" → handleFileUrlSubmit url = .endpointNone) ∧
    (jsTrim url ≠ "" →
      (handleFileUrlSubmit url = .driveFolder ↔
        strContains url "drive.google.com/drive/folders/" = true) ∧
      (handleFileUrlSubmit url = .driveFile ↔
        strContains url "drive.google.com/drive/folders/" = false ∧
        (strContains url "drive.google.com/file/" = true ∨
         strContains url "drive.google.com/uc?id=" = true)) ∧
      (handleFileUrlSubmit url = .pdfUrl ↔
        strContains url "drive.google.com/drive/folders/" = false ∧
        strContains url "drive.google.com/file/" = false ∧
        strContains url "drive.google.com/uc?id=" = false)) := by
  constructor
  · intro h
    simp [handleFileUrlSubmit, h]
  · intro h
    cases hfold : strContains url "drive.google.com/drive/folders/" with
    | true => simp [handleFileUrlSubmit, h, hfold]
    | false =>
      cases hfile : strContains url "drive.google.com/file/" with
      | true => simp [handleFileUrlSubmit, h, hfold, hfile]
      | false =>
        cases huc : strContains url "drive.google.com/uc?id=" with
        | true => simp [handleFileUrlSubmit, h, hfold, hfile, huc]
        | false => simp [handleFileUrlSubmit, h, hfold, hfile, huc]

/-- Witness for C7: the dispatch evaluated on a concrete Google Drive
file link, through the theorem. -/
theorem fileUrlDispatch_ordered_witness :
    handleFileUrlSubmit "https://drive.google.com/file/d/abc/view" = .driveFile := by
  have h := (fileUrlDispatch_ordered "https://drive.google.com/file/d/abc/view").2 (by decide)
  exact h.2.1.mpr (by decide)

/-- Helper: one step of the web-URL list keeps the length between 1 and
5. -/
theorem urlStep_bounds (l : List String) (op : UrlOp)
    (h1 : 1 ≤ l.length) (h5 : l.length ≤ 5) :
    1 ≤ (urlStep l op).length ∧ (urlStep l op).length ≤ 5 := by
  cases op with
  | add =>
    by_cases hlt : l.length < 5
    · simp [urlStep, hlt]; omega
    · simp [urlStep, hlt]; omega
  | remove i =>
    by_cases hgt : 1 < l.length
    · have := List.length_eraseIdx l i
      simp only [urlStep, if_pos hgt]
      rw [this]
      split <;> omega
    · simp [urlStep, hgt]; omega
  | update i v =>
    simp [urlStep]; omega

/-- Helper: folding url operations from a state within bounds stays
within bounds. -/
theorem urlFold_bounds (ops : List UrlOp) :
    ∀ l : List String, 1 ≤ l.length → l.length ≤ 5 →
      1 ≤ (ops.foldl urlStep l).length ∧ (ops.foldl urlStep l).length ≤ 5 := by
  induction ops with
  | nil => intro l h1 h5; exact ⟨h1, h5⟩
  | cons op rest ih =>
    intro l h1 h5
    have hstep := urlStep_bounds l op h1 h5
    simpa [List.foldl_cons] using ih (urlStep l op) hstep.1 hstep.2

/-- C10: the web-URL input list always contains between 1 and 5
entries: it starts with one blank entry, and every sequence of add,
remove and update operations keeps the length in that range. -/
theorem webUrlList_bounds (ops : List UrlOp) :
    1 ≤ (runUrlOps ops).length ∧ (runUrlOps ops).length ≤ 5 := by
  unfold runUrlOps
  exact urlFold_bounds ops [""] (by decide) (by decide)

/-- C5: when a user message starts a new conversation (none was current,
or the response carries a different conversation id), the title is the
trimmed message cut to its first 50 characters, with a three-dot
ellipsis appended exactly when the trimmed message exceeds 50
characters. -/
theorem conversationTitle_truncation (cur : Option Conversation) (respId : Nat)
    (raw : String)
    (h : cur = none ∨ ∃ c, cur = some c ∧ c.id ≠ respId) :
    ((jsTrim raw).length ≤ 50 →
      (updatedConversation cur respId (jsTrim raw)).title = (jsTrim raw).take 50) ∧
    (50 < (jsTrim raw).length →
      (updatedConversation cur respId (jsTrim raw)).title =
        (jsTrim raw).take 50 ++ "...") := by
  have htitle : (updatedConversation cur respId (jsTrim raw)).title
      = conversationTitle (jsTrim raw) := by
    rcases h with h | ⟨c, hc, hne⟩
    · subst h; rfl
    · subst hc; simp [updatedConversation, hne]
  constructor
  · intro hlen
    rw [htitle]
    unfold conversationTitle
    rw [if_neg (by omega)]
    simp
  · intro hlen
    rw [htitle]
    unfold conversationTitle
    rw [if_pos hlen]

/-- Witness for C5: the title computed for a concrete first message,
through the theorem. -/
theorem conversationTitle_truncation_witness :
    (updatedConversation none 0 (jsTrim " hello ")).title = (jsTrim " hello ").take 50 :=
  (conversationTitle_truncation none 0 " hello " (Or.inl rfl)).1 (by decide)

/-- A genuine object value (jobj); null is excluded even though a typeof
test calls it object.  Written from the wording of claim C6. -/
def isObjectValue : JsVal → Bool
  | .jobj _ => true
  | _ => false

/-- The chart precedence as claim C6 words it: the financial_insights
charts field when that exists (is truthy), otherwise response.charts
when that is an object, otherwise null.  Written from the claim for
comparison with the source embedding chartDataOf. -/
def claimChartPrecedence (respCharts respFI : JsVal) : JsVal :=
  if truthy respFI && truthy (getField respFI "charts") then getField respFI "charts"
  else if isObjectValue respCharts then respCharts
  else .jnull

/-- C6: the chart payload merged into the rendered assistant message
follows the fixed precedence of the claim, and the chart panel renders
exactly for a non-empty object payload. -/
theorem chartPrecedence_display (resp : ChatResponse) (c : JsVal) :
    (assistantMessageOf resp).charts
      = claimChartPrecedence resp.charts resp.financialInsights ∧
    chartsDisplayed c = isNonemptyObject c := by
  constructor
  · show chartDataOf resp.charts resp.financialInsights = _
    unfold chartDataOf claimChartPrecedence
    by_cases hfi : (truthy resp.financialInsights
        && truthy (getField resp.financialInsights "charts")) = true
    · simp [hfi]
    · simp only [Bool.not_eq_true] at hfi
      simp only [hfi, Bool.false_eq_true, if_false]
      cases hc : resp.charts <;>
        simp [truthy, typeofObject, isObjectValue]
  · cases c with
    | jobj fields =>
      cases fields with
      | nil => simp [chartsDisplayed, isNonemptyObject, truthy, typeofObject, objectKeysLength]
      | cons f fs => simp [chartsDisplayed, isNonemptyObject, truthy, typeofObject, objectKeysLength]
    | jnull => simp [chartsDisplayed, isNonemptyObject, truthy]
    | jundefined => simp [chartsDisplayed, isNonemptyObject, truthy]
    | jbool b => simp [chartsDisplayed, isNonemptyObject, truthy, typeofObject]
    | jnum n => simp [chartsDisplayed, isNonemptyObject, truthy, typeofObject]
    | jstr s => simp [chartsDisplayed, isNonemptyObject, truthy, typeofObject]

/-- A raw ledger record whose opening_balance key is present but holds
0: the JavaScript or-chain skips it and picks the balance field. -/
def ledgerBalanceCE : JsVal :=
  .jobj [("opening_balance", .jnum 0), ("balance", .jnum 100)]

/-- A raw ledger record whose parent key is present but holds the empty
string: the JavaScript or-chain skips it and picks the group field. -/
def ledgerGroupCE : JsVal :=
  .jobj [("parent", .jstr ""), ("group", .jstr "Assets")]

/-- Counterexample to C4 as stated: on records whose first-alias field
is present but falsy (a zero balance, an empty parent), the code does
not take the present field; the claim reading (first present field wins)
disagrees with the source at these concrete inputs. -/
theorem ledgerAlias_counterexample :
    resolvedBalanceField ledgerBalanceCE = .jnum 100 ∧
    claimPresentBalanceField ledgerBalanceCE = .jnum 0 ∧
    resolvedBalanceField ledgerBalanceCE ≠ claimPresentBalanceField ledgerBalanceCE ∧
    resolvedGroupField ledgerGroupCE = .jstr "Assets" ∧
    claimPresentGroupField ledgerGroupCE = .jstr "" ∧
    resolvedGroupField ledgerGroupCE ≠ claimPresentGroupField ledgerGroupCE := by
  have hb1 : resolvedBalanceField ledgerBalanceCE = .jnum 100 := rfl
  have hb2 : claimPresentBalanceField ledgerBalanceCE = .jnum 0 := rfl
  have hg1 : resolvedGroupField ledgerGroupCE = .jstr "Assets" := rfl
  have hg2 : claimPresentGroupField ledgerGroupCE = .jstr "" := rfl
  refine ⟨hb1, hb2, ?_, hg1, hg2, ?_⟩
  · rw [hb1, hb2]
    intro h
    injection h with hn
    exact absurd hn (by norm_num)
  · rw [hg1, hg2]
    intro h
    injection h with hs
    simp at hs

/-- C4 amended: each financial concept is resolved through the ordered
alias list with the first truthy match winning: the balance is
opening_balance when that is truthy (present and non-zero), else
balance when that is truthy, else 0; the group is parent when that is
truthy (present and non-empty), else group when that is truthy, else
the string N/A. -/
theorem ledgerAlias_firstTruthy (l : JsVal) :
    (truthy (getField l "opening_balance") = true →
      resolvedBalanceField l = getField l "opening_balance") ∧
    (truthy (getField l "opening_balance") = false →
      truthy (getField l "balance") = true →
      resolvedBalanceField l = getField l "balance") ∧
    (truthy (getField l "opening_balance") = false →
      truthy (getField l "balance") = false →
      resolvedBalanceField l = .jnum 0) ∧
    (truthy (getField l "parent") = true →
      resolvedGroupField l = getField l "parent") ∧
    (truthy (getField l "parent") = false →
      truthy (getField l "group") = true →
      resolvedGroupField l = getField l "group") ∧
    (truthy (getField l "parent") = false →
      truthy (getField l "group") = false →
      resolvedGroupField l = .jstr "N/A") := by
  refine ⟨?_, ?_, ?_, ?_, ?_, ?_⟩
  · intro h; simp [resolvedBalanceField, jsOr, h]
  · intro h h2; simp [resolvedBalanceField, jsOr, h, h2]
  · intro h h2; simp [resolvedBalanceField, jsOr, h, h2]
  · intro h; simp [resolvedGroupField, jsOr, h]
  · intro h h2; simp [resolvedGroupField, jsOr, h, h2]
  · intro h h2; simp [resolvedGroupField, jsOr, h, h2]

/-- Witness for the amended C4: a record carrying only a balance and a
group field resolves to them, through the theorem. -/
theorem ledgerAlias_firstTruthy_witness :
    resolvedBalanceField (.jobj [("balance", .jnum 7), ("group", .jstr "Loans")])
      = .jnum 7 := by
  have h := (ledgerAlias_firstTruthy
    (.jobj [("balance", .jnum 7), ("group", .jstr "Loans")])).2.1 rfl rfl
  exact h.trans rfl

/-- Counterexample to C1 as stated: on a failing assistant call the
user message of the turn is not kept in the message list and no
assistant message is produced; the whole turn is dropped (only a toast
is shown). -/
theorem sendFailure_counterexample :
    sendMessageMessages [] "hello" none = [] ∧
    ¬ (∃ m ∈ sendMessageMessages [] "hello" none,
        m.role = Role.user ∧ m.content = "hello") := by
  have h : sendMessageMessages [] "hello" none = [] := rfl
  refine ⟨h, ?_⟩
  rintro ⟨m, hm, -⟩
  rw [h] at hm
  exact absurd hm (List.not_mem_nil m)

/-- C1 amended: when the assistant call of a turn fails, the message
list is restored to its prior state: the optimistic user message is
removed again and no assistant message (error-marked or otherwise) is
appended; the failure surfaces only as a toast. -/
theorem sendFailure_dropsTurn (messages : List ChatMessage) (raw : String) :
    sendMessageMessages messages raw none = messages := by
  unfold sendMessageMessages
  split <;> rfl

/-- A chat response that omits the context_used field. -/
def respOmittingContext : ChatResponse :=
  { message := "hi"
    charts := .jundefined
    financialInsights := .jundefined
    contextUsed := .jundefined
    conversationId := 3 }

/-- C3: a rag request while zero documents are completed is answered
with a normal, non-error assistant message, context_used false, and the
mode silently downgraded to general for that turn (orchestrator
modelled from the spec); and the rendered assistant message defaults
context_used to false whenever the response omits it (Chat.jsx line
139). -/
theorem ragZeroDocs_downgrade (reply : String) (resp : ChatResponse) :
    (orchestrate 0 .rag reply).isError = false ∧
    (orchestrate 0 .rag reply).contextUsed = false ∧
    (orchestrate 0 .rag reply).usedMode = .general ∧
    (orchestrate 0 .rag reply).messageText = reply ∧
    (resp.contextUsed = .jundefined →
      (assistantMessageOf resp).contextUsed = .jbool false) := by
  refine ⟨rfl, rfl, rfl, rfl, ?_⟩
  intro h
  simp [assistantMessageOf, jsOr, h, truthy]

/-- Witness for C3: the rendered default evaluated on a concrete
response omitting context_used, through the theorem. -/
theorem ragZeroDocs_downgrade_witness :
    (assistantMessageOf respOmittingContext).contextUsed = .jbool false :=
  (ragZeroDocs_downgrade "hi" respOmittingContext).2.2.2.2 rfl

/-- C8: the batch submission fans out into exactly the trimmed
non-blank URLs in their original order, each tagged web_url, sent as
one request; all-blank input sends nothing; and the (spec-modelled)
batch processing handles every source independently, so one failing
item never aborts the rest. -/
theorem webUrlsBatch_fanout (webUrls : List String) (outcome : WebSource → Bool)
    (sources : List WebSource) :
    ((∀ u ∈ webUrls, jsTrim u = "") → handleWebUrlsSubmit webUrls = none) ∧
    ((∃ u ∈ webUrls, jsTrim u ≠ "") →
      handleWebUrlsSubmit webUrls =
        some ((webUrls.filter (fun u => jsTrim u ≠ "")).map
          (fun u => ⟨jsTrim u, "web_url"⟩))) ∧
    (processMultipleSources outcome sources).map Prod.fst = sources ∧
    (processMultipleSources outcome sources).length = sources.length := by
  refine ⟨?_, ?_, ?_, ?_⟩
  · intro h
    have hfil : webUrls.filter (fun u => jsTrim u ≠ "") = [] := by
      rw [List.filter_eq_nil_iff]
      intro a ha
      simp [h a ha]
    simp only [handleWebUrlsSubmit, hfil]
    rfl
  · rintro ⟨u, hu, hne⟩
    have hfil : webUrls.filter (fun u => jsTrim u ≠ "") ≠ [] := by
      intro hcontra
      rw [List.filter_eq_nil_iff] at hcontra
      exact (hcontra u hu) (by simpa using hne)
    simp only [handleWebUrlsSubmit, List.isEmpty_iff]
    rw [if_neg hfil]
  · have hmap : ∀ l : List WebSource, (l.map fun s => (s, outcome s)).map Prod.fst = l := by
      intro l
      induction l with
      | nil => rfl
      | cons a t iht => simp [iht]
    simpa [processMultipleSources] using hmap sources
  · simp [processMultipleSources]

/-- Witness for C8: the batch body built from one blank and one padded
URL, through the theorem. -/
theorem webUrlsBatch_fanout_witness :
    handleWebUrlsSubmit ["", " https://a.com "] =
      some [⟨"https://a.com", "web_url"⟩] := by
  have h := (webUrlsBatch_fanout ["", " https://a.com "] (fun _ => false) []).2.1
    ⟨" https://a.com ", by simp, by decide⟩
  rw [h]
  rfl

/-- Helper: each registry operation preserves the completed-documents
invariant. -/
theorem chunkInvariant_step (s : RegistryState) (op : RegOp)
    (h : chunkInvariant s) : chunkInvariant (regStep s op) := by
  cases op with
  | create id =>
    intro d hd hc
    simp only [regStep, createDoc, List.mem_append, List.mem_singleton] at hd
    rcases hd with hd | hd
    · exact h d hd hc
    · subst hd; simp at hc
  | finish id texts =>
    intro d hd hc
    by_cases hempty : texts.isEmpty = true
    · simp only [regStep, finishProcessing, if_pos hempty, List.mem_map] at hd
      obtain ⟨d0, hd0, hfd⟩ := hd
      by_cases hid : d0.id = id
      · rw [if_pos hid] at hfd
        subst hfd; simp at hc
      · rw [if_neg hid] at hfd
        subst hfd; exact h d0 hd0 hc
    · simp only [regStep, finishProcessing, if_neg hempty, List.mem_map] at hd
      obtain ⟨d0, hd0, hfd⟩ := hd
      by_cases hid : d0.id = id
      · rw [if_pos hid] at hfd
        subst hfd
        have : texts ≠ [] := by
          intro hnil; rw [hnil] at hempty; exact hempty rfl
        simpa using List.length_pos.mpr this
      · rw [if_neg hid] at hfd
        subst hfd; exact h d0 hd0 hc
  | delete id =>
    intro d hd hc
    exact h d (List.mem_filter.mp hd).1 hc

/-- Helper: the invariant carries through a whole operation sequence. -/
theorem chunkInvariant_fold (ops : List RegOp) :
    ∀ s : RegistryState, chunkInvariant s → chunkInvariant (ops.foldl regStep s) := by
  induction ops with
  | nil => intro s h; exact h
  | cons op rest ih =>
    intro s h
    simpa [List.foldl_cons] using ih (regStep s op) (chunkInvariant_step s op h)

/-- C2: after any sequence of registry operations every completed
document has at least one chunk, and deleting a document leaves no
chunk referencing it in the vector index (registry and index modelled
from the spec; the backend is not in the repository snapshot). -/
theorem registryInvariant_delete (ops : List RegOp) (s : RegistryState) (docId : Nat) :
    chunkInvariant (runRegistry ops) ∧
    ∀ c ∈ (deleteDoc s docId).index, c.docId ≠ docId := by
  constructor
  · refine chunkInvariant_fold ops ⟨[], []⟩ ?_
    intro d hd hc
    simp at hd
  · intro c hc
    have hm := List.mem_filter.mp hc
    simpa using hm.2

/-- Witness for C2: the invariant evaluated after a concrete run that
completes, fails and deletes documents, through the theorem. -/
theorem registryInvariant_delete_witness :
    chunkInvariant (runRegistry
      [.create 1, .finish 1 ["alpha", "beta"], .create 2, .finish 2 [], .delete 1]) :=
  (registryInvariant_delete
    [.create 1, .finish 1 ["alpha", "beta"], .create 2, .finish 2 [], .delete 1]
    ⟨[], []⟩ 0).1

/-- Helper: from a state with no installed timer, a start-free event
sequence never performs a periodic fetch and never installs a timer. -/
theorem fetcher_timerStays (evs : List FetchEvent) :
    ∀ s : FetcherState, s.timerActive = false →
      (∀ e ∈ evs, isStartEvent e = false) →
      periodicFetchOccurs s evs = false ∧ (runFetcher s evs).timerActive = false := by
  induction evs with
  | nil => intro s h _; exact ⟨rfl, h⟩
  | cons e rest ih =>
    intro s h hall
    have he : isStartEvent e = false := hall e (List.mem_cons_self e rest)
    have hstep : (fetcherStep s e).timerActive = false := by
      cases e with
      | connectOk => simpa [fetcherStep] using h
      | connectFail => simpa [fetcherStep] using h
      | start ok => simp [isStartEvent] at he
      | stop => simp [fetcherStep]
      | tick ok => simp [fetcherStep, h]
      | disconnect => simp [fetcherStep]
    have hrest := ih (fetcherStep s e) hstep (fun x hx => hall x (List.mem_cons_of_mem e hx))
    constructor
    · cases e with
      | connectOk => simp [periodicFetchOccurs, hrest.1]
      | connectFail => simp [periodicFetchOccurs, hrest.1]
      | start ok => simp [isStartEvent] at he
      | stop => simp [periodicFetchOccurs, hrest.1]
      | tick ok => simp [periodicFetchOccurs, fetchOccurs, h, hrest.1]
      | disconnect => simp [periodicFetchOccurs, hrest.1]
    · simpa [runFetcher, List.foldl_cons] using hrest.2

/-- C9 amended: the polling task is cancellable: stopDataFetching
clears the timer and stops the fetching flag, no periodic fetch fires
afterwards until startDataFetching is called again, and
startDataFetching while disconnected changes nothing and fetches
nothing.  (After a failed fetch flips isConnected to false, an already
installed timer does keep firing until stopped; see the
counterexample.) -/
theorem polling_cancellable (s : FetcherState) (evs : List FetchEvent) (ok : Bool) :
    ((fetcherStep s .stop).timerActive = false ∧
     (fetcherStep s .stop).isDataFetching = false) ∧
    (s.timerActive = false → (∀ e ∈ evs, isStartEvent e = false) →
      periodicFetchOccurs s evs = false ∧ (runFetcher s evs).timerActive = false) ∧
    (s.isConnected = false →
      fetcherStep s (.start ok) = s ∧ fetchOccurs s (.start ok) = false) := by
  refine ⟨⟨rfl, rfl⟩, ?_, ?_⟩
  · intro h hall
    exact fetcher_timerStays evs s h hall
  · intro h
    constructor
    · simp [fetcherStep, h]
    · simpa [fetchOccurs] using h

/-- Witness for the amended C9: a stopped state stays quiet over a
concrete start-free event sequence, through the theorem. -/
theorem polling_cancellable_witness :
    periodicFetchOccurs ⟨true, true, false⟩ [.tick true, .connectOk, .stop] = false := by
  have h := (polling_cancellable ⟨true, true, false⟩
    [.tick true, .connectOk, .stop] true).2.1 rfl (by decide)
  exact h.1

/-- Counterexample to C9 as stated: the polling task does run while
disconnected.  After connecting and starting, one failing fetch flips
isConnected to false but leaves the interval installed, and the next
tick performs a fetch in the disconnected state. -/
theorem polling_counterexample :
    (runFetcher ⟨true, false, false⟩ [.start true, .tick false]).isConnected = false ∧
    (runFetcher ⟨true, false, false⟩ [.start true, .tick false]).timerActive = true ∧
    fetchOccurs (runFetcher ⟨true, false, false⟩ [.start true, .tick false])
      (.tick true) = true := by
  decide

end RAGSpec
